import Mathlib

-- Verification of the FarmPluginRuntime plugin (crates/plugin_runtime/src/lib.rs).
-- Strings are modelled as lists of characters; the external collaborators of the
-- plugin (the generic resolver reached through the plugin driver, the file
-- content provider read_file_utf8, the module type inference module_type_from_id,
-- the module system classifier module_system_from_deps and the bundle renderer
-- resource_pot_to_runtime_object) are taken as parameters of the hook functions,
-- mirroring the trait-object interfaces the Rust code consumes.

abbrev Str := List Char

-- const RUNTIME_SUFFIX: &str = ".farm-runtime";
def RUNTIME_SUFFIX : Str := ".farm-runtime".data

-- fn name(&self) -> &str { "FarmPluginRuntime" }
def pluginName : Str := "FarmPluginRuntime".data

-- Rust str::replace(pat, repl): replace every non-overlapping occurrence of pat,
-- scanning left to right.  Implemented with an explicit fuel argument (the length
-- of the scanned list) so that the definition is structurally recursive and
-- computes by kernel reduction.
def strReplaceAux (pat repl : Str) : Nat → Str → Str
  | _, [] => []
  | 0, s => s
  | fuel + 1, c :: rest =>
    if pat.isPrefixOf (c :: rest) then
      repl ++ strReplaceAux pat repl fuel ((c :: rest).drop pat.length)
    else
      c :: strReplaceAux pat repl fuel rest

def strReplace (s pat repl : Str) : Str := strReplaceAux pat repl s.length s

-- Whether pat occurs somewhere in s (as a contiguous substring).
def hasOccurB (pat : Str) : Str → Bool
  | [] => false
  | c :: rest => pat.isPrefixOf (c :: rest) || hasOccurB pat rest

-- pat has no nontrivial border: no proper nonempty prefix of pat is also a
-- suffix of pat.  This rules out occurrences of pat straddling the boundary
-- of an append s ++ pat.
def borderFree (pat : Str) : Prop :=
  ∀ j < pat.length, 0 < j → pat.drop j ≠ pat.take (pat.length - j)

instance (pat : Str) : Decidable (borderFree pat) := by
  unfold borderFree; infer_instance

-- struct PluginHookContext { caller: Option<String>, meta: HashMap<String, String> }
structure PluginHookContext where
  caller : Option Str
  meta : List (Str × Str)
deriving DecidableEq

-- enum ResolveKind (farmfe_core::plugin::ResolveKind)
inductive ResolveKind where
  | Entry (value : Str)
  | Import
  | DynamicImport
  | Require
  | ExportFrom
  | CssAtImport
  | CssUrl
  | ScriptSrc
  | LinkHref
  | HmrUpdate
  | Custom (value : Str)
deriving DecidableEq

-- struct PluginResolveHookParam { source: String, importer: Option<ModuleId>, kind: ResolveKind }
-- (the importer is recorded through its relative_path, which is what the hook inspects)
structure PluginResolveHookParam where
  source : Str
  importer : Option Str
  kind : ResolveKind
deriving DecidableEq

-- struct PluginResolveHookResult { resolved_path, external, side_effects, query, meta }
structure PluginResolveHookResult where
  resolved_path : Str
  external : Bool
  side_effects : Bool
  query : List (Str × Str)
  meta : List (Str × Str)
deriving DecidableEq

def mkResolveResult (p : Str) : PluginResolveHookResult :=
  { resolved_path := p, external := false, side_effects := false, query := [], meta := [] }

-- param.importer.is_some() && param.importer.as_ref().unwrap().relative_path().ends_with(RUNTIME_SUFFIX)
def importerIsRuntime : Option Str → Bool
  | some importer => RUNTIME_SUFFIX.isSuffixOf importer
  | none => false

-- fn resolve(&self, param, context, hook_context).  The delegate driverResolve is
-- context.plugin_driver.resolve; errors of the delegate are propagated (the `?`).
def resolve {ε : Type} (driverResolve : PluginResolveHookParam → PluginHookContext → Except ε (Option PluginResolveHookResult)) (param : PluginResolveHookParam) (hook_context : PluginHookContext) : Except ε (Option PluginResolveHookResult) :=
  -- avoid cyclic resolve
  if hook_context.caller = some pluginName then
    Except.ok none
  else if RUNTIME_SUFFIX.isSuffixOf param.source || importerIsRuntime param.importer then
    -- let ori_source = param.source.replace(RUNTIME_SUFFIX, "") (inlined below)
    match driverResolve { param with source := strReplace param.source RUNTIME_SUFFIX [] } { caller := some pluginName, meta := [] } with
    | Except.error e => Except.error e
    | Except.ok (some res) => Except.ok (some { res with resolved_path := res.resolved_path ++ RUNTIME_SUFFIX })
    | Except.ok none => Except.ok none
  else
    Except.ok none

-- enum ModuleType (farmfe_core::module::ModuleType)
inductive ModuleType where
  | Js
  | Jsx
  | Ts
  | Tsx
  | Css
  | Html
  | Asset
  | Runtime
  | Custom (value : Str)
deriving DecidableEq

structure PluginLoadHookParam where
  resolved_path : Str
  query : List (Str × Str)
deriving DecidableEq

structure PluginLoadHookResult where
  content : Str
  module_type : ModuleType
deriving DecidableEq

-- Failure modes of the load hook: a propagated I/O error of read_file_utf8, or
-- the fatal panic "unknown module type for {path}".
inductive LoadError (ε : Type) where
  | io (e : ε)
  | unknownModuleType (path : Str)
deriving DecidableEq

-- fn load(&self, param, _context, _hook_context)
def load {ε : Type} (read_file_utf8 : Str → Except ε Str) (module_type_from_id : Str → Option ModuleType) (param : PluginLoadHookParam) : Except (LoadError ε) (Option PluginLoadHookResult) :=
  -- let real_file_path = param.resolved_path.replace(RUNTIME_SUFFIX, "") (inlined
  -- at its three use sites below)
  if RUNTIME_SUFFIX.isSuffixOf param.resolved_path then
    match read_file_utf8 (strReplace param.resolved_path RUNTIME_SUFFIX []) with
    | Except.error e => Except.error (LoadError.io e)
    | Except.ok content =>
      match module_type_from_id (strReplace param.resolved_path RUNTIME_SUFFIX []) with
      | some module_type => Except.ok (some { content := content, module_type := module_type })
      | none => Except.error (LoadError.unknownModuleType (strReplace param.resolved_path RUNTIME_SUFFIX []))
  else
    Except.ok none

-- swc import specifiers, as far as analyze_deps distinguishes them.
inductive ImportSpecifier where
  | Named
  | Default
  | Namespace
deriving DecidableEq

-- Top level statements of a script module, as far as analyze_deps distinguishes
-- them: ModuleItem::ModuleDecl(ModuleDecl::Import ..), ModuleDecl::ExportAll,
-- and everything else.
inductive ModuleItem where
  | ImportDecl (specifiers : List ImportSpecifier)
  | ExportAll
  | Other
deriving DecidableEq

def isNamespaceSpec : ImportSpecifier → Bool
  | ImportSpecifier.Namespace => true
  | _ => false

def isDefaultSpec : ImportSpecifier → Bool
  | ImportSpecifier.Default => true
  | _ => false

def isExportAllItem : ModuleItem → Bool
  | ModuleItem.ExportAll => true
  | _ => false

def isImportItem : ModuleItem → Bool
  | ModuleItem.ImportDecl _ => true
  | _ => false

def hasNamespaceSpec : ModuleItem → Bool
  | ModuleItem.ImportDecl sp => sp.any isNamespaceSpec
  | _ => false

def hasDefaultSpec : ModuleItem → Bool
  | ModuleItem.ImportDecl sp => sp.any isDefaultSpec
  | _ => false

-- The three mutable booleans of analyze_deps.
structure Flags where
  has_import_star : Bool
  has_import_default : Bool
  has_export_star : Bool
deriving DecidableEq

-- One iteration of `for stmt in &script.ast.body`.  Note that has_import_star is
-- overwritten (seeded by has_export_star) at every import declaration, while
-- has_import_default accumulates.
def analyzeStmt (f : Flags) : ModuleItem → Flags
  | ModuleItem.ImportDecl specifiers =>
    { f with
      has_import_star := f.has_export_star || specifiers.any isNamespaceSpec,
      has_import_default := f.has_import_default || specifiers.any isDefaultSpec }
  | ModuleItem.ExportAll => { f with has_export_star := true }
  | ModuleItem.Other => f

def initFlags : Flags :=
  { has_import_star := false, has_import_default := false, has_export_star := false }

def analyzeFlags (body : List ModuleItem) : Flags :=
  body.foldl analyzeStmt initFlags

-- struct PluginAnalyzeDepsHookResultEntry { source: String, kind: ResolveKind }
structure PluginAnalyzeDepsHookResultEntry where
  source : Str
  kind : ResolveKind
deriving DecidableEq

def interopRequireWildcard : Str := "@swc/helpers/_/_interop_require_wildcard".data

def interopRequireDefault : Str := "@swc/helpers/_/_interop_require_default".data

def exportStarHelper : Str := "@swc/helpers/_/_export_star".data

-- let exists = |source, param| param.deps.iter().any(|dep| dep.source == source)
def depExists (source : Str) (deps : List PluginAnalyzeDepsHookResultEntry) : Bool :=
  deps.any fun dep => dep.source == source

-- One conditional insertion: if the flag is set and no entry with this source is
-- present yet, push an Import-kind entry for the helper.
def insertHelper (cond : Bool) (src : Str) (deps : List PluginAnalyzeDepsHookResultEntry) : List PluginAnalyzeDepsHookResultEntry :=
  if cond && !(depExists src deps) then
    deps ++ [{ source := src, kind := ResolveKind.Import }]
  else
    deps

-- The three insertions of analyze_deps, in source order: wildcard, default,
-- export star; each membership test runs against the list as extended so far.
def insertHelpers (flags : Flags) (deps : List PluginAnalyzeDepsHookResultEntry) : List PluginAnalyzeDepsHookResultEntry :=
  insertHelper flags.has_export_star exportStarHelper
    (insertHelper flags.has_import_default interopRequireDefault
      (insertHelper flags.has_import_star interopRequireWildcard deps))

-- enum ModuleSystem (farmfe_core::module::ModuleSystem)
inductive ModuleSystem where
  | EsModule
  | CommonJs
  | Hybrid
  | Custom (value : Str)
deriving DecidableEq

structure ScriptModuleMetaData where
  ast_body : List ModuleItem
  module_system : ModuleSystem
deriving DecidableEq

inductive ModuleMetaData where
  | Script (s : ScriptModuleMetaData)
  | Css
  | Html
  | Custom
deriving DecidableEq

-- struct Module, restricted to the fields the hooks touch; id records the
-- module id relative path (ModuleId::relative_path).
structure FarmModule where
  id : Str
  module_type : ModuleType
  meta : ModuleMetaData
deriving DecidableEq

def mkRuntimeScriptModule (id : Str) (body : List ModuleItem) : FarmModule :=
  { id := id, module_type := ModuleType.Js,
    meta := ModuleMetaData.Script { ast_body := body, module_system := ModuleSystem.EsModule } }

-- fn analyze_deps(&self, param, _context).  param.deps is mutated in place in
-- Rust; here the new deps list is returned (some = Ok(Some(())), none = Ok(None),
-- in which case the list is untouched).
def analyze_deps (module : FarmModule) (deps : List PluginAnalyzeDepsHookResultEntry) : Option (List PluginAnalyzeDepsHookResultEntry) :=
  if !(RUNTIME_SUFFIX.isSuffixOf module.id) then
    none
  else
    match module.meta with
    | ModuleMetaData.Script script => some (insertHelpers (analyzeFlags script.ast_body) deps)
    | _ => none

-- meta.as_script_mut().module_system = ms (as_script_mut panics on non-script
-- metadata; the hooks only reach it for script modules).
def setScriptModuleSystem (meta : ModuleMetaData) (ms : ModuleSystem) : ModuleMetaData :=
  match meta with
  | ModuleMetaData.Script s => ModuleMetaData.Script { s with module_system := ms }
  | other => other

-- fn finalize_module(&self, param, _context).  module_system_from_deps is the
-- external classifier from farmfe_toolkit; deps is param.deps.
def finalize_module (module_system_from_deps : List ResolveKind → ModuleSystem) (module : FarmModule) (deps : List PluginAnalyzeDepsHookResultEntry) : Option FarmModule :=
  if RUNTIME_SUFFIX.isSuffixOf module.id then
    let module1 := { module with module_type := ModuleType.Runtime }
    if !deps.isEmpty then
      some { module1 with
             meta := setScriptModuleSystem module1.meta (module_system_from_deps (deps.map fun d => d.kind)) }
    else
      -- default to es module
      some { module1 with meta := setScriptModuleSystem module1.meta ModuleSystem.EsModule }
  else
    none

-- enum ResourcePotType
inductive ResourcePotType where
  | Runtime
  | Js
  | Css
  | Html
  | Custom (value : Str)
deriving DecidableEq

-- struct ResourcePotMetaData { rendered_modules, rendered_content, rendered_map_chain }
structure ResourcePotMetaData where
  rendered_modules : List (Str × Str)
  rendered_content : Str
  rendered_map_chain : List Str
deriving DecidableEq

-- struct ResourcePot, restricted to the fields the hooks touch; entry_module
-- stores the entry module id already in its ModuleId::id(mode) string form.
structure ResourcePot where
  id : Str
  resource_pot_type : ResourcePotType
  modules : List Str
  entry_module : Option Str
  meta : ResourcePotMetaData
  immutable : Bool
deriving DecidableEq

-- matches!(resource_pot.resource_pot_type, ResourcePotType::Runtime)
def isRuntimePot : ResourcePotType → Bool
  | ResourcePotType.Runtime => true
  | _ => false

def isJsPot : ResourcePotType → Bool
  | ResourcePotType.Js => true
  | _ => false

-- struct RenderedJsResourcePot { bundle, rendered_modules } (render_resource_pot)
structure RenderedJsResourcePot where
  bundle : Str
  rendered_modules : List (Str × Str)
deriving DecidableEq

-- The bootstrap wrapper text prepended in process_resource_pots.
def bootstrapWrapperBegin : Str :=
  "(function (modules, entryModule) \x7b
            var cache = \x7b\x7d;

            function require(id) \x7b
              if (cache[id]) return cache[id].exports;

              var module = \x7b
                id: id,
                exports: \x7b\x7d
              \x7d;

              modules[id](module, module.exports, require);
              cache[id] = module;
              return module.exports;
            \x7d

            require(entryModule);
          \x7d)(".data

-- format!(", {:?});", resource_pot.entry_module.as_ref().unwrap().id(mode)):
-- the Debug formatting of a String prints it quoted.  (unwrap panics when the
-- pot has no entry module; Runtime pots always carry one.)
def entryCallEnd (pot : ResourcePot) : Str :=
  ", \"".data ++ pot.entry_module.getD [] ++ "\");".data

-- The loop body of process_resource_pots: find the first Runtime pot, render it
-- through the external resource_pot_to_runtime_object and wrap it into the
-- self-invoking bootstrap; the loop breaks after the first Runtime pot.
def renderFirstRuntimePot {ε : Type} (render : ResourcePot → Except ε RenderedJsResourcePot) : List ResourcePot → Except ε (Option Str)
  | [] => Except.ok none
  | pot :: rest =>
    if isRuntimePot pot.resource_pot_type then
      match render pot with
      | Except.error e => Except.error e
      | Except.ok r => Except.ok (some (bootstrapWrapperBegin ++ r.bundle ++ entryCallEnd pot))
    else
      renderFirstRuntimePot render rest

-- Outcome of one process_resource_pots call: the new cached runtime code, the
-- hook result (none = Ok(None)), and how many bundle renders were performed.
structure ProcessOutcome where
  runtime_code : Str
  result : Option Unit
  renders : Nat
deriving DecidableEq

-- fn process_resource_pots(&self, resource_pots, context).  runtime_code is the
-- current content of the shared Mutex<Arc<String>> cache; calls are serialized
-- (the hook takes an exclusive borrow of all resource pots).
def process_resource_pots {ε : Type} (render : ResourcePot → Except ε RenderedJsResourcePot) (runtime_code : Str) (resource_pots : List ResourcePot) : Except ε ProcessOutcome :=
  if !runtime_code.isEmpty then
    Except.ok { runtime_code := runtime_code, result := none, renders := 0 }
  else
    match renderFirstRuntimePot render resource_pots with
    | Except.error e => Except.error e
    | Except.ok (some bundled) => Except.ok { runtime_code := bundled, result := some (), renders := 1 }
    | Except.ok none => Except.ok { runtime_code := runtime_code, result := some (), renders := 0 }

-- A sequence of process_resource_pots calls within one compilation, threading
-- the cache and summing the number of renders.
def runTrace {ε : Type} (render : ResourcePot → Except ε RenderedJsResourcePot) : Str → List (List ResourcePot) → Except ε (Str × Nat)
  | code, [] => Except.ok (code, 0)
  | code, pots :: rest =>
    match process_resource_pots render code pots with
    | Except.error e => Except.error e
    | Except.ok outcome =>
      match runTrace render outcome.runtime_code rest with
      | Except.error e => Except.error e
      | Except.ok (c, n) => Except.ok (c, outcome.renders + n)

-- The registration wrapper text prepended in render_resource_pot_modules.
def jsWrapperBegin : Str :=
  "(function (modules) \x7b
        for (var key in modules) \x7b
          var __farm_global_this__ = (globalThis || window || global || self)[
            __farm_namespace__
          ];
          __farm_global_this__.__farm_module_system__.register(key, modules[key]);
        \x7d
      \x7d)(".data

-- Failure modes of render_resource_pot_modules: a propagated delegate error, or
-- the fatal source map generation or serialization error carrying the pot id.
inductive RenderHookError (ε : Type) where
  | delegate (e : ε)
  | GenerateSourceMapError (id : Str)
deriving DecidableEq

-- fn render_resource_pot_modules(&self, resource_pot, context, _hook_context).
-- genSourceMap models bundle.generate_map followed by map.to_writer (both
-- failure modes collapsed into none); sourcemapEnabled models
-- context.config.sourcemap.enabled, applied to resource_pot.immutable.
def render_resource_pot_modules {ε : Type} (render : ResourcePot → Except ε RenderedJsResourcePot) (genSourceMap : Str → Option Str) (sourcemapEnabled : Bool → Bool) (runtime_code : Str) (resource_pot : ResourcePot) : Except (RenderHookError ε) (Option ResourcePotMetaData) :=
  if isRuntimePot resource_pot.resource_pot_type then
    Except.ok (some { rendered_modules := [], rendered_content := runtime_code, rendered_map_chain := [] })
  else if isJsPot resource_pot.resource_pot_type then
    match render resource_pot with
    | Except.error e => Except.error (RenderHookError.delegate e)
    | Except.ok r =>
      let bundle := jsWrapperBegin ++ r.bundle ++ ");".data
      if sourcemapEnabled resource_pot.immutable then
        match genSourceMap bundle with
        | some map =>
          Except.ok (some { rendered_modules := r.rendered_modules, rendered_content := bundle, rendered_map_chain := [map] })
        | none => Except.error (RenderHookError.GenerateSourceMapError resource_pot.id)
      else
        Except.ok (some { rendered_modules := r.rendered_modules, rendered_content := bundle, rendered_map_chain := [] })
  else
    Except.ok none

-- enum ResourceType, restricted to the variants named here.
inductive ResourceType where
  | Runtime
  | Js
  | Css
  | Html
  | SourceMap
  | Asset
  | Custom (value : Str)
deriving DecidableEq

inductive ResourceOrigin where
  | ResourcePot (id : Str)
  | Module (id : Str)
deriving DecidableEq

-- struct Resource { name, bytes, emitted, resource_type, origin }; bytes holds
-- the UTF-8 content (rendered_content.as_bytes().to_vec()).
structure Resource where
  name : Str
  bytes : Str
  emitted : Bool
  resource_type : ResourceType
  origin : ResourceOrigin
deriving DecidableEq

structure PluginGenerateResourcesHookResult where
  resource : Resource
  source_map : Option Resource
deriving DecidableEq

-- fn generate_resources(&self, resource_pot, _context, hook_context)
def generate_resources (resource_pot : ResourcePot) (hook_context : PluginHookContext) : Option PluginGenerateResourcesHookResult :=
  if hook_context.caller = some pluginName then
    none
  else if isRuntimePot resource_pot.resource_pot_type then
    -- emitted is set to true by default: the runtime resource is injected when
    -- generating entry resources instead of being written standalone
    some { resource := { name := resource_pot.id,
                         bytes := resource_pot.meta.rendered_content,
                         emitted := true,
                         resource_type := ResourceType.Runtime,
                         origin := ResourceOrigin.ResourcePot resource_pot.id },
           source_map := none }
  else
    none

-- Number of dependency entries carrying a given source string.
def countSource (source : Str) (deps : List PluginAnalyzeDepsHookResultEntry) : Nat :=
  (deps.filter fun dep => dep.source == source).length

-- Concrete hook contexts, delegates, modules and resource pots used by the
-- instance theorems below.

def emptyCtx : PluginHookContext := { caller := none, meta := [] }

def pluginCtx : PluginHookContext := { caller := some pluginName, meta := [] }

def c2Delegate : PluginResolveHookParam → PluginHookContext → Except Unit (Option PluginResolveHookResult) :=
  fun p _ =>
    if p.source = "a.farm-runtime.js".data then
      Except.ok (some (mkResolveResult "/root/a.farm-runtime.js".data))
    else if p.source = "a.js".data then
      Except.ok (some (mkResolveResult "/root/a.js".data))
    else
      Except.ok none

def c2Param : PluginResolveHookParam :=
  { source := "a.farm-runtime.js.farm-runtime".data, importer := none, kind := ResolveKind.Import }

def c2WParam : PluginResolveHookParam :=
  { source := "a.js.farm-runtime".data, importer := none, kind := ResolveKind.Import }

def c10Param : PluginResolveHookParam :=
  { source := "a.farm-runtime.js".data, importer := some "x.farm-runtime".data, kind := ResolveKind.Import }

def c10Sub : PluginResolveHookParam :=
  { source := "a.js".data, importer := some "x.farm-runtime".data, kind := ResolveKind.Import }

def c10LoadParam : PluginLoadHookParam :=
  { resolved_path := "a.farm-runtime.js.farm-runtime".data, query := [] }

def c10Driver : PluginResolveHookParam → PluginHookContext → Except Unit (Option PluginResolveHookResult) :=
  fun p _ =>
    if p.source = "a.js".data then Except.ok (some (mkResolveResult "/root/a.js".data))
    else Except.ok none

def c10Reader : Str → Except Unit Str :=
  fun p => if p = "a.js".data then Except.ok "export default 1;".data else Except.error ()

def c10Infer : Str → Option ModuleType :=
  fun p => if p = "a.js".data then some ModuleType.Js else none

def c7Reader : Str → Except Unit Str :=
  fun p =>
    if p = "a.js".data then Except.ok "const x = 1;".data
    else if p = "b.weird".data then Except.ok "???".data
    else Except.error ()

def c7Infer : Str → Option ModuleType :=
  fun p => if p = "a.js".data then some ModuleType.Js else none

def m3a : FarmModule :=
  mkRuntimeScriptModule "a.js.farm-runtime".data [ModuleItem.ImportDecl [ImportSpecifier.Default]]

def m3b : FarmModule :=
  mkRuntimeScriptModule "b.js.farm-runtime".data [ModuleItem.ExportAll]

def m3c : FarmModule :=
  mkRuntimeScriptModule "c.js.farm-runtime".data
    [ModuleItem.ImportDecl [ImportSpecifier.Named], ModuleItem.Other]

def m4 : FarmModule := mkRuntimeScriptModule "x.js.farm-runtime".data []

def d4 : List PluginAnalyzeDepsHookResultEntry :=
  [{ source := interopRequireDefault, kind := ResolveKind.Import },
   { source := interopRequireDefault, kind := ResolveKind.Import }]

def m9Body : List ModuleItem :=
  [ModuleItem.ImportDecl [ImportSpecifier.Namespace],
   ModuleItem.ImportDecl [ImportSpecifier.Named],
   ModuleItem.ImportDecl [ImportSpecifier.Namespace]]

def m9 : FarmModule := mkRuntimeScriptModule "y.js.farm-runtime".data m9Body

def m9wBody : List ModuleItem :=
  [ModuleItem.ImportDecl [ImportSpecifier.Namespace],
   ModuleItem.ImportDecl [ImportSpecifier.Default]]

def m9w : FarmModule := mkRuntimeScriptModule "z.js.farm-runtime".data m9wBody

def m8 : FarmModule := mkRuntimeScriptModule "r.js.farm-runtime".data []

def m8n : FarmModule := mkRuntimeScriptModule "n.js".data []

def c8Classifier : List ResolveKind → ModuleSystem := fun _ => ModuleSystem.Hybrid

def d8 : List PluginAnalyzeDepsHookResultEntry :=
  [{ source := "./a".data, kind := ResolveKind.Require }]

def c5Driver : PluginResolveHookParam → PluginHookContext → Except Unit (Option PluginResolveHookResult) :=
  fun _ _ => Except.ok none

def c5Param : PluginResolveHookParam :=
  { source := "s.farm-runtime".data, importer := none, kind := ResolveKind.Import }

def c5Pot : ResourcePot :=
  { id := "FARM_RUNTIME".data, resource_pot_type := ResourcePotType.Runtime, modules := [],
    entry_module := some "main.farm-runtime".data,
    meta := { rendered_modules := [], rendered_content := "rc".data, rendered_map_chain := [] },
    immutable := false }

def p1 : ResourcePot :=
  { id := "FARM_RUNTIME".data, resource_pot_type := ResourcePotType.Runtime, modules := ["m".data],
    entry_module := some "main.farm-runtime".data,
    meta := { rendered_modules := [], rendered_content := "bootstrap-bundle".data, rendered_map_chain := [] },
    immutable := false }

def c1Render : ResourcePot → Except Unit RenderedJsResourcePot := fun _ => Except.error ()

def c1GenMap : Str → Option Str := fun _ => none

def c6Render : ResourcePot → Except Unit RenderedJsResourcePot :=
  fun _ => Except.ok { bundle := "OBJ".data, rendered_modules := [] }

def c6Pot : ResourcePot :=
  { id := "FARM_RUNTIME".data, resource_pot_type := ResourcePotType.Runtime, modules := [],
    entry_module := some "main.farm-runtime".data,
    meta := { rendered_modules := [], rendered_content := [], rendered_map_chain := [] },
    immutable := false }

-- Lemmas about strReplace (the model of Rust str::replace).

theorem strReplaceAux_nil (pat repl : Str) (fuel : Nat) : strReplaceAux pat repl fuel [] = [] := by
  cases fuel <;> rfl

theorem strReplaceAux_cons_pos (pat repl : Str) (f : Nat) (c : Char) (rest : Str)
    (h : pat.isPrefixOf (c :: rest) = true) :
    strReplaceAux pat repl (f + 1) (c :: rest) = repl ++ strReplaceAux pat repl f ((c :: rest).drop pat.length) := by
  simp [strReplaceAux, h]

theorem strReplaceAux_cons_neg (pat repl : Str) (f : Nat) (c : Char) (rest : Str)
    (h : pat.isPrefixOf (c :: rest) = false) :
    strReplaceAux pat repl (f + 1) (c :: rest) = c :: strReplaceAux pat repl f rest := by
  simp [strReplaceAux, h]

theorem strReplaceAux_self (pat repl : Str) (hne : pat ≠ []) (fuel : Nat) (hf : pat.length ≤ fuel) :
    strReplaceAux pat repl fuel pat = repl := by
  cases hp : pat with
  | nil => exact absurd hp hne
  | cons c r =>
    subst hp
    cases fuel with
    | zero => simp at hf
    | succ f =>
      rw [strReplaceAux_cons_pos _ _ _ _ _ (by
        exact List.isPrefixOf_iff_prefix.mpr (List.prefix_refl _))]
      rw [List.drop_length, strReplaceAux_nil]
      simp

theorem isPrefixOf_false_of_not_occur {pat s : Str} (hne : s ≠ []) (h : hasOccurB pat s = false) :
    pat.isPrefixOf s = false := by
  cases s with
  | nil => exact absurd rfl hne
  | cons c rest =>
    have hor : (pat.isPrefixOf (c :: rest) || hasOccurB pat rest) = false := h
    exact (Bool.or_eq_false_iff.mp hor).1

theorem hasOccurB_tail {pat : Str} {c : Char} {rest : Str} (h : hasOccurB pat (c :: rest) = false) :
    hasOccurB pat rest = false := by
  have hor : (pat.isPrefixOf (c :: rest) || hasOccurB pat rest) = false := h
  exact (Bool.or_eq_false_iff.mp hor).2

-- No occurrence of pat in P and no nontrivial border of pat imply that pat is
-- not a prefix of P ++ pat for nonempty P: an occurrence at the front would
-- either lie inside P or straddle into pat, forcing a border.
theorem not_isPrefixOf_append {pat P : Str} (hnb : borderFree pat) (hP : P ≠ [])
    (hno : hasOccurB pat P = false) : pat.isPrefixOf (P ++ pat) = false := by
  by_contra hc
  have hc2 : pat.isPrefixOf (P ++ pat) = true := by
    cases hb : pat.isPrefixOf (P ++ pat) with
    | true => rfl
    | false => exact absurd hb hc
  have hpre : pat <+: P ++ pat := List.isPrefixOf_iff_prefix.mp hc2
  have htake : pat = (P ++ pat).take pat.length := List.prefix_iff_eq_take.mp hpre
  rw [List.take_append_eq_append_take] at htake
  rcases le_or_lt pat.length P.length with hle | hlt
  · have h0 : pat.length - P.length = 0 := Nat.sub_eq_zero_of_le hle
    rw [h0] at htake
    simp at htake
    have hpp : pat <+: P := by
      rw [htake]
      exact List.take_prefix _ _
    have htrue : pat.isPrefixOf P = true := List.isPrefixOf_iff_prefix.mpr hpp
    have hfalse := isPrefixOf_false_of_not_occur hP hno
    rw [htrue] at hfalse
    exact Bool.true_eq_false.mp hfalse
  · have hPt : P.take pat.length = P := List.take_of_length_le (Nat.le_of_lt hlt)
    rw [hPt] at htake
    have hdrop : pat.drop P.length = pat.take (pat.length - P.length) := by
      conv_lhs => rw [htake]
      rw [List.drop_append_eq_append_drop]
      simp
    have hj0 : 0 < P.length := List.length_pos.mpr hP
    exact hnb P.length hlt hj0 hdrop

theorem strReplaceAux_append (pat repl : Str) (hnb : borderFree pat) (hne : pat ≠ []) :
    ∀ (P : Str) (fuel : Nat), (P ++ pat).length ≤ fuel → hasOccurB pat P = false →
    strReplaceAux pat repl fuel (P ++ pat) = P ++ repl := by
  intro P
  induction P with
  | nil =>
    intro fuel hf _
    simp only [List.nil_append] at hf ⊢
    exact strReplaceAux_self pat repl hne fuel hf
  | cons c P1 ih =>
    intro fuel hf hno
    have hP : (c :: P1) ≠ [] := by simp
    have hpref : pat.isPrefixOf ((c :: P1) ++ pat) = false := not_isPrefixOf_append hnb hP hno
    cases fuel with
    | zero => simp at hf
    | succ f =>
      have hcons : (c :: P1) ++ pat = c :: (P1 ++ pat) := rfl
      rw [hcons] at hpref ⊢
      rw [strReplaceAux_cons_neg _ _ _ _ _ hpref]
      have hno1 : hasOccurB pat P1 = false := hasOccurB_tail hno
      have hf1 : (P1 ++ pat).length ≤ f := by
        simp only [hcons, List.length_cons] at hf
        omega
      rw [ih f hf1 hno1]
      rfl

-- Stripping the runtime suffix from P ++ suffix recovers P whenever P itself
-- contains no occurrence of the suffix.
theorem strReplace_append_suffix (P : Str) (hno : hasOccurB RUNTIME_SUFFIX P = false) :
    strReplace (P ++ RUNTIME_SUFFIX) RUNTIME_SUFFIX [] = P := by
  unfold strReplace
  rw [strReplaceAux_append RUNTIME_SUFFIX [] (by decide) (by decide) P _ (Nat.le_refl _) hno]
  simp

theorem runtime_suffix_isSuffixOf (P : Str) : RUNTIME_SUFFIX.isSuffixOf (P ++ RUNTIME_SUFFIX) = true :=
  List.isSuffixOf_iff_suffix.mpr (List.suffix_append P RUNTIME_SUFFIX)

/-- C5: whenever the hook context caller tag equals this plugin's own name
("FarmPluginRuntime"), the resolve hook returns "not handled" regardless of the
request's source or importer and of the delegate resolver, and the
generate_resources hook returns "not handled" regardless of the resource pot. -/
theorem caller_guard_not_handled {ε : Type}
    (driverResolve : PluginResolveHookParam → PluginHookContext → Except ε (Option PluginResolveHookResult))
    (param : PluginResolveHookParam) (hook_context : PluginHookContext) (pot : ResourcePot)
    (hc : hook_context.caller = some pluginName) :
    resolve driverResolve param hook_context = Except.ok none
    ∧ generate_resources pot hook_context = none := by
  constructor
  · unfold resolve
    rw [if_pos hc]
  · unfold generate_resources
    rw [if_pos hc]

theorem caller_guard_not_handled_witness :
    resolve c5Driver c5Param pluginCtx = Except.ok none
    ∧ generate_resources c5Pot pluginCtx = none :=
  caller_guard_not_handled c5Driver c5Param pluginCtx c5Pot rfl

/-- C2 (amended): for every real path P that contains no occurrence of the
reserved suffix ".farm-runtime" and that the delegate resolver can resolve,
resolving P ++ suffix (with a caller tag different from this plugin's name)
yields exactly the delegate's resolution of P with the suffix re-appended to
its resolved path; if the delegate returns no result, the hook returns "not
handled". -/
theorem resolve_suffix_roundtrip {ε : Type}
    (driverResolve : PluginResolveHookParam → PluginHookContext → Except ε (Option PluginResolveHookResult))
    (P : Str) (param : PluginResolveHookParam) (hook_context : PluginHookContext)
    (hsrc : param.source = P ++ RUNTIME_SUFFIX)
    (hcaller : ¬hook_context.caller = some pluginName)
    (hno : hasOccurB RUNTIME_SUFFIX P = false) :
    (∀ res, driverResolve { param with source := P } { caller := some pluginName, meta := [] } = Except.ok (some res) →
        resolve driverResolve param hook_context
          = Except.ok (some { res with resolved_path := res.resolved_path ++ RUNTIME_SUFFIX }))
    ∧ (driverResolve { param with source := P } { caller := some pluginName, meta := [] } = Except.ok none →
        resolve driverResolve param hook_context = Except.ok none) := by
  have hcond : (RUNTIME_SUFFIX.isSuffixOf param.source || importerIsRuntime param.importer) = true := by
    rw [hsrc, runtime_suffix_isSuffixOf]
    rfl
  have hori : strReplace param.source RUNTIME_SUFFIX [] = P := by
    rw [hsrc]
    exact strReplace_append_suffix P hno
  constructor
  · intro res hres
    unfold resolve
    rw [if_neg hcaller, if_pos hcond, hori, hres]
  · intro hres
    unfold resolve
    rw [if_neg hcaller, if_pos hcond, hori, hres]

/-- C2 counterexample: for the real path P = "a.farm-runtime.js" (which the
delegate resolves to "/root/a.farm-runtime.js"), resolving P ++ ".farm-runtime"
does not yield resolved(P) ++ ".farm-runtime": the hook strips every occurrence
of the suffix, re-resolves "a.js" instead of P, and returns
"/root/a.js.farm-runtime". -/
theorem resolve_suffix_roundtrip_counterexample :
    c2Delegate { c2Param with source := "a.farm-runtime.js".data } pluginCtx
      = Except.ok (some (mkResolveResult "/root/a.farm-runtime.js".data))
    ∧ c2Param.source = "a.farm-runtime.js".data ++ RUNTIME_SUFFIX
    ∧ resolve c2Delegate c2Param emptyCtx
      = Except.ok (some (mkResolveResult "/root/a.js.farm-runtime".data))
    ∧ ("/root/a.js.farm-runtime".data : Str) ≠ "/root/a.farm-runtime.js".data ++ RUNTIME_SUFFIX := by
  refine ⟨rfl, rfl, rfl, by decide⟩

theorem resolve_suffix_roundtrip_witness :
    resolve c2Delegate c2WParam emptyCtx
      = Except.ok (some (mkResolveResult "/root/a.js.farm-runtime".data)) :=
  (resolve_suffix_roundtrip c2Delegate "a.js".data c2WParam emptyCtx rfl
    (by decide) (by decide)).1 (mkResolveResult "/root/a.js".data) rfl

/-- C10: both resolve and load strip every occurrence of ".farm-runtime" from
the incoming string, not only a trailing suffix.  For the source
"a.farm-runtime.js" (qualifying through its runtime-suffixed importer, with no
trailing suffix at all) the delegate is consulted at "a.js"; for the resolved
path "a.farm-runtime.js.farm-runtime" the content provider and the type
inference are consulted at "a.js". -/
theorem replace_strips_all_occurrences {ε : Type}
    (driverResolve : PluginResolveHookParam → PluginHookContext → Except ε (Option PluginResolveHookResult))
    (read_file_utf8 : Str → Except ε Str) (module_type_from_id : Str → Option ModuleType) :
    (strReplace "a.farm-runtime.js".data RUNTIME_SUFFIX [] = "a.js".data)
    ∧ (∀ res, driverResolve c10Sub pluginCtx = Except.ok (some res) →
        resolve driverResolve c10Param emptyCtx
          = Except.ok (some { res with resolved_path := res.resolved_path ++ RUNTIME_SUFFIX }))
    ∧ (∀ content t, read_file_utf8 "a.js".data = Except.ok content →
        module_type_from_id "a.js".data = some t →
        load read_file_utf8 module_type_from_id c10LoadParam
          = Except.ok (some { content := content, module_type := t })) := by
  refine ⟨rfl, ?_, ?_⟩
  · intro res hres
    have key : resolve driverResolve c10Param emptyCtx
        = (match driverResolve c10Sub pluginCtx with
           | Except.error e => Except.error e
           | Except.ok (some r) => Except.ok (some { r with resolved_path := r.resolved_path ++ RUNTIME_SUFFIX })
           | Except.ok none => Except.ok none) := rfl
    rw [key, hres]
  · intro content t hread hinfer
    have key : load read_file_utf8 module_type_from_id c10LoadParam
        = (match read_file_utf8 "a.js".data with
           | Except.error e => Except.error (LoadError.io e)
           | Except.ok content =>
             match module_type_from_id "a.js".data with
             | some module_type => Except.ok (some { content := content, module_type := module_type })
             | none => Except.error (LoadError.unknownModuleType "a.js".data)) := rfl
    rw [key, hread, hinfer]

theorem replace_strips_all_occurrences_witness :
    resolve c10Driver c10Param emptyCtx
      = Except.ok (some (mkResolveResult "/root/a.js.farm-runtime".data))
    ∧ load c10Reader c10Infer c10LoadParam
      = Except.ok (some { content := "export default 1;".data, module_type := ModuleType.Js }) :=
  ⟨(replace_strips_all_occurrences c10Driver c10Reader c10Infer).2.1
      (mkResolveResult "/root/a.js".data) rfl,
   (replace_strips_all_occurrences c10Driver c10Reader c10Infer).2.2
      "export default 1;".data ModuleType.Js rfl rfl⟩

-- Lemmas about the flag-computing loop of analyze_deps.

theorem foldl_has_export_star (b : List ModuleItem) : ∀ f : Flags,
    (List.foldl analyzeStmt f b).has_export_star = (f.has_export_star || b.any isExportAllItem) := by
  induction b with
  | nil => intro f; simp
  | cons hd tl ih =>
    intro f
    cases hd <;> simp [analyzeStmt, isExportAllItem, ih, Bool.or_assoc]

theorem foldl_has_import_default (b : List ModuleItem) : ∀ f : Flags,
    (List.foldl analyzeStmt f b).has_import_default = (f.has_import_default || b.any hasDefaultSpec) := by
  induction b with
  | nil => intro f; simp
  | cons hd tl ih =>
    intro f
    cases hd <;> simp [analyzeStmt, hasDefaultSpec, ih, Bool.or_assoc]

-- Only import declarations write the two import flags.
theorem foldl_import_stable (b : List ModuleItem) : ∀ f : Flags, b.any isImportItem = false →
    (List.foldl analyzeStmt f b).has_import_star = f.has_import_star
    ∧ (List.foldl analyzeStmt f b).has_import_default = f.has_import_default := by
  induction b with
  | nil => intro f _; exact ⟨rfl, rfl⟩
  | cons hd tl ih =>
    intro f hni
    cases hd with
    | ImportDecl sp => simp [isImportItem] at hni
    | ExportAll =>
      have htl : tl.any isImportItem = false := by simpa [isImportItem] using hni
      simp only [List.foldl_cons, analyzeStmt]
      simpa using ih _ htl
    | Other =>
      have htl : tl.any isImportItem = false := by simpa [isImportItem] using hni
      simp only [List.foldl_cons, analyzeStmt]
      exact ih _ htl

theorem foldl_import_star_false (b : List ModuleItem) : ∀ f : Flags,
    b.any isExportAllItem = false → b.any hasNamespaceSpec = false →
    f.has_export_star = false → f.has_import_star = false →
    (List.foldl analyzeStmt f b).has_import_star = false := by
  induction b with
  | nil => intro f _ _ _ hf; exact hf
  | cons hd tl ih =>
    intro f he hns hfe hfs
    cases hd with
    | ImportDecl sp =>
      simp only [List.any_cons] at he hns
      obtain ⟨-, he2⟩ := Bool.or_eq_false_iff.mp he
      obtain ⟨hn1, hn2⟩ := Bool.or_eq_false_iff.mp hns
      have hsp : sp.any isNamespaceSpec = false := by simpa [hasNamespaceSpec] using hn1
      simp only [List.foldl_cons]
      apply ih _ he2 hn2
      · simp [analyzeStmt, hfe]
      · simp [analyzeStmt, hfe, hsp]
    | ExportAll => simp [isExportAllItem] at he
    | Other =>
      simp only [List.any_cons] at he hns
      obtain ⟨-, he2⟩ := Bool.or_eq_false_iff.mp he
      obtain ⟨-, hn2⟩ := Bool.or_eq_false_iff.mp hns
      simp only [List.foldl_cons]
      apply ih _ he2 hn2
      · simpa [analyzeStmt] using hfe
      · simpa [analyzeStmt] using hfs

-- The wildcard flag after the last import declaration: it holds exactly the
-- value computed at that declaration, untouched by the remaining statements.
theorem foldl_star_after_last_import (pre : List ModuleItem) (sp : List ImportSpecifier)
    (post : List ModuleItem) (hpost : post.any isImportItem = false)
    (hsp : sp.any isNamespaceSpec = false) (hpre : pre.any isExportAllItem = false) :
    (analyzeFlags (pre ++ ModuleItem.ImportDecl sp :: post)).has_import_star = false := by
  unfold analyzeFlags
  rw [List.foldl_append, List.foldl_cons]
  have hstep : (analyzeStmt (List.foldl analyzeStmt initFlags pre) (ModuleItem.ImportDecl sp)).has_import_star = false := by
    have hexp : (List.foldl analyzeStmt initFlags pre).has_export_star = false := by
      rw [foldl_has_export_star]
      simp [initFlags, hpre]
    simp [analyzeStmt, hexp, hsp]
  rw [(foldl_import_stable post _ hpost).1]
  exact hstep

theorem analyze_deps_script (module : FarmModule) (deps : List PluginAnalyzeDepsHookResultEntry)
    (s : ScriptModuleMetaData) (hid : RUNTIME_SUFFIX.isSuffixOf module.id = true)
    (hmeta : module.meta = ModuleMetaData.Script s) :
    analyze_deps module deps = some (insertHelpers (analyzeFlags s.ast_body) deps) := by
  simp [analyze_deps, hid, hmeta]

-- Lemmas about the helper insertions and entry counts.

theorem count_append_entry (h src : Str) (k : ResolveKind) (d : List PluginAnalyzeDepsHookResultEntry) :
    countSource h (d ++ [{ source := src, kind := k }])
      = countSource h d + (if (src == h) then 1 else 0) := by
  simp only [countSource, List.filter_append, List.length_append]
  cases hsh : (src == h) <;> simp [List.filter, hsh]

theorem countSource_zero_of_not_exists (h : Str) (d : List PluginAnalyzeDepsHookResultEntry)
    (hd : depExists h d = false) : countSource h d = 0 := by
  induction d with
  | nil => rfl
  | cons e tl ih =>
    simp only [depExists, List.any_cons] at hd
    obtain ⟨h1, h2⟩ := Bool.or_eq_false_iff.mp hd
    have ih2 : countSource h tl = 0 := ih h2
    simp only [countSource, List.filter_cons, h1] at ih2 ⊢
    simpa using ih2

theorem count_insertHelper_le_one (h src : Str) (cond : Bool)
    (d : List PluginAnalyzeDepsHookResultEntry) (hle : countSource h d ≤ 1) :
    countSource h (insertHelper cond src d) ≤ 1 := by
  unfold insertHelper
  cases hc : (cond && !(depExists src d)) with
  | false => simpa [hc] using hle
  | true =>
    simp only [hc, if_true]
    rw [count_append_entry]
    cases hsh : (src == h) with
    | false => simpa [hsh] using hle
    | true =>
      have hsrc : src = h := eq_of_beq hsh
      simp only [Bool.and_eq_true] at hc
      obtain ⟨-, hnotex⟩ := hc
      rw [Bool.not_eq_true'] at hnotex
      have hz : countSource h d = 0 := by
        rw [← hsrc]
        exact countSource_zero_of_not_exists src d hnotex
      simp [hz]

theorem count_insertHelpers_le_one (h : Str) (flags : Flags)
    (d : List PluginAnalyzeDepsHookResultEntry) (hle : countSource h d ≤ 1) :
    countSource h (insertHelpers flags d) ≤ 1 := by
  unfold insertHelpers
  exact count_insertHelper_le_one _ _ _ _ (count_insertHelper_le_one _ _ _ _ (count_insertHelper_le_one _ _ _ _ hle))

theorem count_insertHelper_other (h src : Str) (cond : Bool)
    (d : List PluginAnalyzeDepsHookResultEntry) (hcase : (src == h) = false ∨ cond = false) :
    countSource h (insertHelper cond src d) = countSource h d := by
  unfold insertHelper
  cases hc : (cond && !(depExists src d)) with
  | false => simp [hc]
  | true =>
    rcases hcase with hsh | hcond
    · simp [hc, count_append_entry, hsh]
    · simp only [Bool.and_eq_true] at hc
      rw [hcond] at hc
      exact absurd hc.1 (by simp)

/-- C3: for a runtime-suffixed script module, if the top level statements
contain a default import but no namespace specifier and no export-all,
analyze_deps appends exactly the default-interop helper (when not already
present); if they contain an export-all but no import declaration at all, it
appends exactly the export-star helper; if they contain no default-import
specifier, no namespace-import specifier, and no export-all, it appends
nothing. -/
theorem analyze_deps_helper_selection (module : FarmModule)
    (deps : List PluginAnalyzeDepsHookResultEntry) (s : ScriptModuleMetaData)
    (hid : RUNTIME_SUFFIX.isSuffixOf module.id = true)
    (hmeta : module.meta = ModuleMetaData.Script s) :
    (s.ast_body.any hasDefaultSpec = true → s.ast_body.any hasNamespaceSpec = false →
     s.ast_body.any isExportAllItem = false → depExists interopRequireDefault deps = false →
       analyze_deps module deps
         = some (deps ++ [{ source := interopRequireDefault, kind := ResolveKind.Import }]))
    ∧ (s.ast_body.any isExportAllItem = true → s.ast_body.any isImportItem = false →
       depExists exportStarHelper deps = false →
       analyze_deps module deps
         = some (deps ++ [{ source := exportStarHelper, kind := ResolveKind.Import }]))
    ∧ (s.ast_body.any hasDefaultSpec = false → s.ast_body.any hasNamespaceSpec = false →
       s.ast_body.any isExportAllItem = false →
       analyze_deps module deps = some deps) := by
  refine ⟨?_, ?_, ?_⟩
  · intro hd hns he hnotex
    rw [analyze_deps_script module deps s hid hmeta]
    have hstar : (List.foldl analyzeStmt initFlags s.ast_body).has_import_star = false :=
      foldl_import_star_false s.ast_body initFlags he hns rfl rfl
    have hdef : (List.foldl analyzeStmt initFlags s.ast_body).has_import_default = true := by
      rw [foldl_has_import_default]
      simp [initFlags, hd]
    have hexp : (List.foldl analyzeStmt initFlags s.ast_body).has_export_star = false := by
      rw [foldl_has_export_star]
      simp [initFlags, he]
    simp [analyzeFlags, insertHelpers, insertHelper, hstar, hdef, hexp, hnotex]
  · intro he hni hnotex
    rw [analyze_deps_script module deps s hid hmeta]
    have hstable := foldl_import_stable s.ast_body initFlags hni
    have hstar : (List.foldl analyzeStmt initFlags s.ast_body).has_import_star = false := by
      simpa [initFlags] using hstable.1
    have hdef : (List.foldl analyzeStmt initFlags s.ast_body).has_import_default = false := by
      simpa [initFlags] using hstable.2
    have hexp : (List.foldl analyzeStmt initFlags s.ast_body).has_export_star = true := by
      rw [foldl_has_export_star]
      simp [initFlags, he]
    simp [analyzeFlags, insertHelpers, insertHelper, hstar, hdef, hexp, hnotex]
  · intro hd hns he
    rw [analyze_deps_script module deps s hid hmeta]
    have hstar : (List.foldl analyzeStmt initFlags s.ast_body).has_import_star = false :=
      foldl_import_star_false s.ast_body initFlags he hns rfl rfl
    have hdef : (List.foldl analyzeStmt initFlags s.ast_body).has_import_default = false := by
      rw [foldl_has_import_default]
      simp [initFlags, hd]
    have hexp : (List.foldl analyzeStmt initFlags s.ast_body).has_export_star = false := by
      rw [foldl_has_export_star]
      simp [initFlags, he]
    simp [analyzeFlags, insertHelpers, insertHelper, hstar, hdef, hexp]

theorem analyze_deps_helper_selection_witness :
    analyze_deps m3a [] = some [{ source := interopRequireDefault, kind := ResolveKind.Import }]
    ∧ analyze_deps m3b [] = some [{ source := exportStarHelper, kind := ResolveKind.Import }]
    ∧ analyze_deps m3c [] = some [] :=
  ⟨(analyze_deps_helper_selection m3a []
      { ast_body := [ModuleItem.ImportDecl [ImportSpecifier.Default]], module_system := ModuleSystem.EsModule }
      rfl rfl).1 rfl rfl rfl rfl,
   (analyze_deps_helper_selection m3b []
      { ast_body := [ModuleItem.ExportAll], module_system := ModuleSystem.EsModule }
      rfl rfl).2.1 rfl rfl rfl,
   (analyze_deps_helper_selection m3c []
      { ast_body := [ModuleItem.ImportDecl [ImportSpecifier.Named], ModuleItem.Other], module_system := ModuleSystem.EsModule }
      rfl rfl).2.2 rfl rfl rfl⟩

/-- C4 (amended): for every runtime-suffixed script module and every dependency
list that contains at most one entry per distinct helper source, running
analyze_deps twice in succession yields a dependency list still containing at
most one entry per distinct helper source (each insertion is guarded by an
exact membership check on the source string). -/
theorem analyze_deps_twice_helper_counts (module : FarmModule)
    (deps deps1 deps2 : List PluginAnalyzeDepsHookResultEntry)
    (h1 : analyze_deps module deps = some deps1)
    (h2 : analyze_deps module deps1 = some deps2)
    (hdup : ∀ h, (h = interopRequireWildcard ∨ h = interopRequireDefault ∨ h = exportStarHelper) →
      countSource h deps ≤ 1) :
    ∀ h, (h = interopRequireWildcard ∨ h = interopRequireDefault ∨ h = exportStarHelper) →
      countSource h deps2 ≤ 1 := by
  intro h hh
  unfold analyze_deps at h1 h2
  cases hs : RUNTIME_SUFFIX.isSuffixOf module.id with
  | false =>
    rw [hs] at h1
    simp at h1
  | true =>
    rw [hs] at h1 h2
    cases hm : module.meta with
    | Script s =>
      rw [hm] at h1 h2
      simp at h1 h2
      subst h1
      subst h2
      exact count_insertHelpers_le_one h _ _ (count_insertHelpers_le_one h _ _ (hdup h hh))
    | Css =>
      rw [hm] at h1
      simp at h1
    | Html =>
      rw [hm] at h1
      simp at h1
    | Custom =>
      rw [hm] at h1
      simp at h1

/-- C4 counterexample: for the initial dependency list that already carries the
default-interop helper twice, running analyze_deps twice on a runtime-suffixed
script module leaves both entries in place, so the resulting list holds two
entries for that helper source, not at most one. -/
theorem analyze_deps_twice_helper_counts_counterexample :
    (analyze_deps m4 d4).bind (analyze_deps m4) = some d4
    ∧ ¬(countSource interopRequireDefault d4 ≤ 1) := by
  refine ⟨rfl, by decide⟩

theorem analyze_deps_twice_helper_counts_witness :
    countSource interopRequireDefault ([] : List PluginAnalyzeDepsHookResultEntry) ≤ 1 :=
  analyze_deps_twice_helper_counts m4 [] [] [] rfl rfl
    (fun _ _ => Nat.zero_le 1) interopRequireDefault (Or.inr (Or.inl rfl))

/-- C9 (amended): the wildcard flag is overwritten, not accumulated, at each
statement of import-declaration form: for every runtime-suffixed script module
whose last import declaration has no namespace specifier and is preceded by no
export-all statement, the final wildcard flag is false and analyze_deps
appends no wildcard-helper dependency. -/
theorem wildcard_flag_last_import (module : FarmModule)
    (deps : List PluginAnalyzeDepsHookResultEntry) (s : ScriptModuleMetaData)
    (pre : List ModuleItem) (sp : List ImportSpecifier) (post : List ModuleItem)
    (hid : RUNTIME_SUFFIX.isSuffixOf module.id = true)
    (hmeta : module.meta = ModuleMetaData.Script s)
    (hbody : s.ast_body = pre ++ ModuleItem.ImportDecl sp :: post)
    (hpost : post.any isImportItem = false)
    (hsp : sp.any isNamespaceSpec = false)
    (hpre : pre.any isExportAllItem = false) :
    (analyzeFlags s.ast_body).has_import_star = false
    ∧ ∀ deps1, analyze_deps module deps = some deps1 →
        countSource interopRequireWildcard deps1 = countSource interopRequireWildcard deps := by
  have hstar : (analyzeFlags s.ast_body).has_import_star = false := by
    rw [hbody]
    exact foldl_star_after_last_import pre sp post hpost hsp hpre
  refine ⟨hstar, ?_⟩
  intro deps1 h1
  rw [analyze_deps_script module deps s hid hmeta] at h1
  injection h1 with h1
  subst h1
  unfold insertHelpers
  rw [count_insertHelper_other _ _ _ _ (Or.inl (by decide))]
  rw [count_insertHelper_other _ _ _ _ (Or.inl (by decide))]
  rw [count_insertHelper_other _ _ _ _ (Or.inr hstar)]

/-- C9 counterexample: the statement list of m9 contains a namespace import
followed by a later import declaration with no namespace specifier and no
export-all statement anywhere, yet the final wildcard flag is true and the
wildcard helper is appended, because a further namespace import follows and the
flag is overwritten at every import declaration. -/
theorem wildcard_flag_last_import_counterexample :
    hasNamespaceSpec (ModuleItem.ImportDecl [ImportSpecifier.Namespace]) = true
    ∧ hasNamespaceSpec (ModuleItem.ImportDecl [ImportSpecifier.Named]) = false
    ∧ m9Body.take 2 = [ModuleItem.ImportDecl [ImportSpecifier.Namespace],
                       ModuleItem.ImportDecl [ImportSpecifier.Named]]
    ∧ m9Body.any isExportAllItem = false
    ∧ (analyzeFlags m9Body).has_import_star = true
    ∧ analyze_deps m9 [] = some [{ source := interopRequireWildcard, kind := ResolveKind.Import }] := by
  refine ⟨rfl, rfl, rfl, rfl, rfl, rfl⟩

theorem wildcard_flag_last_import_witness :
    (analyzeFlags m9wBody).has_import_star = false
    ∧ countSource interopRequireWildcard [{ source := interopRequireDefault, kind := ResolveKind.Import }]
        = countSource interopRequireWildcard [] := by
  have h := wildcard_flag_last_import m9w []
    { ast_body := m9wBody, module_system := ModuleSystem.EsModule }
    [ModuleItem.ImportDecl [ImportSpecifier.Namespace]] [ImportSpecifier.Default] []
    rfl rfl rfl rfl rfl rfl
  exact ⟨h.1, h.2 _ rfl⟩

/-- C7: for every resolved path carrying the reserved suffix, load reads the
suffix-stripped real path's content and infers the module type from the real
path; when the type cannot be inferred it aborts fatally (the panic, modelled
as a fatal error) instead of returning "not handled"; for every resolved path
not carrying the suffix it returns "not handled". -/
theorem load_runtime_suffix {ε : Type} (read_file_utf8 : Str → Except ε Str)
    (module_type_from_id : Str → Option ModuleType) (param : PluginLoadHookParam) :
    (RUNTIME_SUFFIX.isSuffixOf param.resolved_path = true →
      (∀ content t,
        read_file_utf8 (strReplace param.resolved_path RUNTIME_SUFFIX []) = Except.ok content →
        module_type_from_id (strReplace param.resolved_path RUNTIME_SUFFIX []) = some t →
        load read_file_utf8 module_type_from_id param
          = Except.ok (some { content := content, module_type := t }))
      ∧ (∀ content,
        read_file_utf8 (strReplace param.resolved_path RUNTIME_SUFFIX []) = Except.ok content →
        module_type_from_id (strReplace param.resolved_path RUNTIME_SUFFIX []) = none →
        load read_file_utf8 module_type_from_id param
          = Except.error (LoadError.unknownModuleType (strReplace param.resolved_path RUNTIME_SUFFIX []))))
    ∧ (RUNTIME_SUFFIX.isSuffixOf param.resolved_path = false →
        load read_file_utf8 module_type_from_id param = Except.ok none) := by
  constructor
  · intro hsuf
    constructor
    · intro content t hread hinfer
      unfold load
      rw [if_pos hsuf, hread]
      show (match module_type_from_id (strReplace param.resolved_path RUNTIME_SUFFIX []) with
            | some module_type =>
              Except.ok (some ({ content := content, module_type := module_type } : PluginLoadHookResult))
            | none =>
              Except.error (LoadError.unknownModuleType (strReplace param.resolved_path RUNTIME_SUFFIX []))) = _
      rw [hinfer]
    · intro content hread hinfer
      unfold load
      rw [if_pos hsuf, hread]
      show (match module_type_from_id (strReplace param.resolved_path RUNTIME_SUFFIX []) with
            | some module_type =>
              Except.ok (some ({ content := content, module_type := module_type } : PluginLoadHookResult))
            | none =>
              Except.error (LoadError.unknownModuleType (strReplace param.resolved_path RUNTIME_SUFFIX []))) = _
      rw [hinfer]
  · intro hsuf
    unfold load
    rw [if_neg (by simp [hsuf])]

theorem load_runtime_suffix_witness :
    load c7Reader c7Infer { resolved_path := "a.js.farm-runtime".data, query := [] }
      = Except.ok (some { content := "const x = 1;".data, module_type := ModuleType.Js })
    ∧ load c7Reader c7Infer { resolved_path := "b.weird.farm-runtime".data, query := [] }
      = Except.error (LoadError.unknownModuleType "b.weird".data)
    ∧ load c7Reader c7Infer { resolved_path := "a.js".data, query := [] } = Except.ok none :=
  ⟨((load_runtime_suffix c7Reader c7Infer
       { resolved_path := "a.js.farm-runtime".data, query := [] }).1 rfl).1
     "const x = 1;".data ModuleType.Js rfl rfl,
   ((load_runtime_suffix c7Reader c7Infer
       { resolved_path := "b.weird.farm-runtime".data, query := [] }).1 rfl).2
     "???".data rfl rfl,
   (load_runtime_suffix c7Reader c7Infer
       { resolved_path := "a.js".data, query := [] }).2 rfl⟩

/-- C8: for every runtime-suffixed script module, finalize_module stamps the
module type Runtime and sets module_system to the external classifier's result
over the dependency kinds when the dependency list is nonempty, and to
EsModule when it is empty; for non-suffixed modules it returns "not handled". -/
theorem finalize_module_runtime (module_system_from_deps : List ResolveKind → ModuleSystem)
    (module : FarmModule) (deps : List PluginAnalyzeDepsHookResultEntry)
    (s : ScriptModuleMetaData) (hmeta : module.meta = ModuleMetaData.Script s) :
    (RUNTIME_SUFFIX.isSuffixOf module.id = true → deps ≠ [] →
      finalize_module module_system_from_deps module deps
        = some { module with
                 module_type := ModuleType.Runtime,
                 meta := ModuleMetaData.Script
                   { s with module_system := module_system_from_deps (deps.map fun d => d.kind) } })
    ∧ (RUNTIME_SUFFIX.isSuffixOf module.id = true → deps = [] →
      finalize_module module_system_from_deps module deps
        = some { module with
                 module_type := ModuleType.Runtime,
                 meta := ModuleMetaData.Script { s with module_system := ModuleSystem.EsModule } })
    ∧ (RUNTIME_SUFFIX.isSuffixOf module.id = false →
      finalize_module module_system_from_deps module deps = none) := by
  refine ⟨?_, ?_, ?_⟩
  · intro hid hne
    have hnempty : (!deps.isEmpty) = true := by
      cases deps with
      | nil => exact absurd rfl hne
      | cons a tl => rfl
    unfold finalize_module
    rw [if_pos hid, if_pos hnempty]
    simp [setScriptModuleSystem, hmeta]
  · intro hid hdeps
    subst hdeps
    unfold finalize_module
    rw [if_pos hid, if_neg (by simp)]
    simp [setScriptModuleSystem, hmeta]
  · intro hid
    unfold finalize_module
    rw [if_neg (by simp [hid])]

theorem finalize_module_runtime_witness :
    finalize_module c8Classifier m8 d8
      = some { m8 with
               module_type := ModuleType.Runtime,
               meta := ModuleMetaData.Script { ast_body := [], module_system := ModuleSystem.Hybrid } }
    ∧ finalize_module c8Classifier m8 []
      = some { m8 with
               module_type := ModuleType.Runtime,
               meta := ModuleMetaData.Script { ast_body := [], module_system := ModuleSystem.EsModule } }
    ∧ finalize_module c8Classifier m8n d8 = none :=
  ⟨(finalize_module_runtime c8Classifier m8 d8
      { ast_body := [], module_system := ModuleSystem.EsModule } rfl).1 rfl (by decide),
   (finalize_module_runtime c8Classifier m8 []
      { ast_body := [], module_system := ModuleSystem.EsModule } rfl).2.1 rfl rfl,
   (finalize_module_runtime c8Classifier m8n d8
      { ast_body := [], module_system := ModuleSystem.EsModule } rfl).2.2 rfl⟩

/-- C1 (amended): for every Runtime-typed resource pot (with a caller tag
different from this plugin's name), generate_resources produces exactly one
Resource whose payload is the pot's rendered content, i.e. the cached bootstrap
bundle stored for Runtime pots by render_resource_pot_modules, whose emitted
flag is set to true (marked as already emitted so that it is not written
standalone: the runtime is injected into entry resources downstream, and other
plugins may flip this), and whose resource type is the Runtime tag. -/
theorem generate_resources_runtime_emitted (pot : ResourcePot) (hook_context : PluginHookContext)
    (runtime_code : Str) (hc : ¬hook_context.caller = some pluginName)
    (hty : isRuntimePot pot.resource_pot_type = true)
    (hmeta : pot.meta.rendered_content = runtime_code) :
    generate_resources pot hook_context
      = some { resource := { name := pot.id,
                             bytes := runtime_code,
                             emitted := true,
                             resource_type := ResourceType.Runtime,
                             origin := ResourceOrigin.ResourcePot pot.id },
               source_map := none }
    ∧ ∀ (ε : Type) (render : ResourcePot → Except ε RenderedJsResourcePot)
        (genSourceMap : Str → Option Str) (sourcemapEnabled : Bool → Bool),
        render_resource_pot_modules render genSourceMap sourcemapEnabled runtime_code pot
          = Except.ok (some { rendered_modules := [],
                              rendered_content := runtime_code,
                              rendered_map_chain := [] }) := by
  constructor
  · unfold generate_resources
    rw [if_neg hc, if_pos hty, hmeta]
  · intro ε render genSourceMap sourcemapEnabled
    unfold render_resource_pot_modules
    rw [if_pos hty]

/-- C1 counterexample: for the concrete Runtime pot p1 and a caller tag that is
not this plugin's name, the produced resource's emitted flag is true, not
false as the claim states. -/
theorem generate_resources_emitted_counterexample :
    isRuntimePot p1.resource_pot_type = true
    ∧ ¬emptyCtx.caller = some pluginName
    ∧ (generate_resources p1 emptyCtx).map (fun r => r.resource.emitted) = some true
    ∧ ¬((generate_resources p1 emptyCtx).map (fun r => r.resource.emitted) = some false) := by
  refine ⟨rfl, by decide, rfl, by decide⟩

theorem generate_resources_runtime_emitted_witness :
    generate_resources p1 emptyCtx
      = some { resource := { name := "FARM_RUNTIME".data,
                             bytes := "bootstrap-bundle".data,
                             emitted := true,
                             resource_type := ResourceType.Runtime,
                             origin := ResourceOrigin.ResourcePot "FARM_RUNTIME".data },
               source_map := none }
    ∧ render_resource_pot_modules c1Render c1GenMap (fun _ => false) "bootstrap-bundle".data p1
      = Except.ok (some { rendered_modules := [],
                          rendered_content := "bootstrap-bundle".data,
                          rendered_map_chain := [] }) := by
  have h := generate_resources_runtime_emitted p1 emptyCtx "bootstrap-bundle".data (by decide) rfl rfl
  exact ⟨h.1, h.2 Unit c1Render c1GenMap (fun _ => false)⟩

-- Lemmas for the once-only rendering of the bootstrap bundle.

theorem process_nonempty {ε : Type} (render : ResourcePot → Except ε RenderedJsResourcePot)
    (code : Str) (pots : List ResourcePot) (h : code ≠ []) :
    process_resource_pots render code pots
      = Except.ok { runtime_code := code, result := none, renders := 0 } := by
  cases code with
  | nil => exact absurd rfl h
  | cons c t =>
    unfold process_resource_pots
    rw [if_pos (show (!(c :: t).isEmpty) = true from rfl)]

theorem runTrace_nonempty {ε : Type} (render : ResourcePot → Except ε RenderedJsResourcePot)
    (trace : List (List ResourcePot)) :
    ∀ code : Str, code ≠ [] → runTrace render code trace = Except.ok (code, 0) := by
  induction trace with
  | nil => intro code h; rfl
  | cons pots rest ih =>
    intro code h
    unfold runTrace
    rw [process_nonempty render code pots h]
    show (match runTrace render code rest with
          | Except.error e => Except.error e
          | Except.ok (c, n) => Except.ok (c, 0 + n)) = _
    rw [ih code h]

theorem bootstrap_ne_nil : bootstrapWrapperBegin ≠ [] := by decide

theorem renderFirst_some_ne_nil {ε : Type} (render : ResourcePot → Except ε RenderedJsResourcePot) :
    ∀ (pots : List ResourcePot) (b : Str),
      renderFirstRuntimePot render pots = Except.ok (some b) → b ≠ [] := by
  intro pots
  induction pots with
  | nil =>
    intro b h
    exact absurd h (by simp [renderFirstRuntimePot])
  | cons pot rest ih =>
    intro b h
    unfold renderFirstRuntimePot at h
    cases hty : isRuntimePot pot.resource_pot_type with
    | false =>
      rw [hty] at h
      simp at h
      exact ih b h
    | true =>
      rw [hty] at h
      simp only [if_true] at h
      cases hr : render pot with
      | error e =>
        rw [hr] at h
        simp at h
      | ok r =>
        rw [hr] at h
        simp at h
        intro hb
        rw [← h] at hb
        exact bootstrap_ne_nil (List.append_eq_nil.mp hb).1

/-- C6: within one compilation, the expensive bootstrap render happens at most
once: whenever the cached runtime-code string is nonempty, process_resource_pots
returns "not handled" immediately, performs no render and leaves the cache
unchanged; and along any sequence of calls starting from the empty cache, the
total number of renders (and hence cache writes) is at most one. -/
theorem bootstrap_render_once {ε : Type} (render : ResourcePot → Except ε RenderedJsResourcePot) :
    (∀ (code : Str) (pots : List ResourcePot), code ≠ [] →
      process_resource_pots render code pots
        = Except.ok { runtime_code := code, result := none, renders := 0 })
    ∧ (∀ (trace : List (List ResourcePot)) (c : Str) (n : Nat),
      runTrace render [] trace = Except.ok (c, n) → n ≤ 1) := by
  constructor
  · exact fun code pots h => process_nonempty render code pots h
  · intro trace
    induction trace with
    | nil =>
      intro c n h
      simp [runTrace] at h
      omega
    | cons pots rest ih =>
      intro c n h
      unfold runTrace at h
      have hproc : process_resource_pots render ([] : Str) pots
          = (match renderFirstRuntimePot render pots with
             | Except.error e => Except.error e
             | Except.ok (some bundled) =>
               Except.ok { runtime_code := bundled, result := some (), renders := 1 }
             | Except.ok none =>
               Except.ok { runtime_code := [], result := some (), renders := 0 }) := rfl
      rw [hproc] at h
      cases hrf : renderFirstRuntimePot render pots with
      | error e =>
        rw [hrf] at h
        simp at h
      | ok ob =>
        rw [hrf] at h
        cases ob with
        | some b =>
          have hb : b ≠ [] := renderFirst_some_ne_nil render pots b hrf
          simp only [] at h
          rw [runTrace_nonempty render rest b hb] at h
          simp at h
          omega
        | none =>
          simp only [] at h
          cases hrt : runTrace render ([] : Str) rest with
          | error e =>
            rw [hrt] at h
            simp at h
          | ok p =>
            obtain ⟨c2, n2⟩ := p
            rw [hrt] at h
            simp at h
            have hle := ih c2 n2 hrt
            omega

theorem bootstrap_render_once_witness :
    process_resource_pots c6Render ("x".data) []
      = Except.ok { runtime_code := "x".data, result := none, renders := 0 }
    ∧ (1 : Nat) ≤ 1 :=
  ⟨(bootstrap_render_once c6Render).1 "x".data [] (by decide),
   (bootstrap_render_once c6Render).2 [[c6Pot]]
     (bootstrapWrapperBegin ++ "OBJ".data ++ entryCallEnd c6Pot) 1 rfl⟩
